import Mathlib

/-!
Shallow embedding of `spiffe-jwt` (`main.go`).

The repository's `main.go` contains two historical variants of the same
sidecar, separated by a document marker:

* the *pod-deletion* variant (lines 1-173): on renewal failure it asks the
  Kubernetes API to delete its own pod;
* the *direct-exit* variant (lines 174-354): on renewal failure it logs
  fatally and exits; it adds a one-shot mode and a 10-second fetch timeout.

Go `time.Duration` is an `int64` count of nanoseconds; it is modelled as
`Int`.  Go integer division (`/` on `int64`) truncates toward zero, which is
`Int.tdiv`.  The single floating-point expression of the source,
`time.Duration(float64(remaining) * 0.8)` (direct-exit variant, line 310),
is modelled as the exact 80% value `Int.tdiv (remaining * 4) 5`; the float
computation agrees with the exact one up to one unit in the last place
(relative error below 2^-52), and every claim about the scheduler is stated
at the granularity of the exact value, matching the spec's `remaining*0.8`.

Wall-clock reads (`time.Until`) are made explicit: each function that reads
the clock takes a `now` parameter, and `remaining = svid.expiry - now`.
External effects (the SPIFFE agent, the filesystem, the Kubernetes API) are
modelled by explicit oracle parameters giving the outcome of each call.
-/

/-- Go `time.Second` in nanoseconds.  Go `time.Duration` is an `int64`
count of nanoseconds and is modelled as `Int` throughout. -/
def second : Int := 1000000000

/-- A JWT SVID as returned by the go-spiffe workload API
(`jwtsvid.SVID`): `marshal` is the raw token string returned by
`svid.Marshal()`, and `expiry` is `svid.Expiry` as a nanosecond timestamp. -/
structure SVID where
  marshal : String
  expiry : Int
deriving DecidableEq

/-- The filesystem, as a map from file names to contents. -/
abbrev FS := String → Option String

/-- A Go `context.Context` restricted to what the program uses: an optional
deadline.  `context.Background()` has `deadline = none`;
`context.WithTimeout(context.Background(), d)` has `deadline = some d`. -/
structure GoContext where
  deadline : Option Int
deriving DecidableEq

/-- Behaviour of the SPIFFE agent during one fetch: it answers with a
validated SVID, answers with an error, or hangs forever. -/
inductive AgentBehavior where
  | respond : SVID → AgentBehavior
  | reject : String → AgentBehavior
  | hang : AgentBehavior
deriving DecidableEq

/-- Modelled from Go `context` semantics (external to this repository): the
result of a workload-API call made under `ctx`.  `none` means the call never
returns (it is pending forever); `some r` means it returns result `r`.  A
hanging agent makes the call return a deadline error exactly when the
context carries a deadline. -/
def fetchViaContext (ctx : GoContext) (agent : AgentBehavior) :
    Option (Except String SVID) :=
  match agent with
  | AgentBehavior.respond svid => some (Except.ok svid)
  | AgentBehavior.reject msg => some (Except.error msg)
  | AgentBehavior.hang =>
      match ctx.deadline with
      | some _ => some (Except.error "context deadline exceeded")
      | none => none

/-- The renewal scheduler as the spec states it (sections 4.2 and 8):
`cap = remaining * 0.8`, `proposed = override` if an override `> 0` is set
and `remaining / 2` otherwise, `result = max (min proposed cap) 1s`. -/
def specNextInterval (override : Option Int) (remaining : Int) :
    Int :=
  let cap := Int.tdiv (remaining * 4) 5
  let proposed :=
    match override with
    | some o => o
    | none => Int.tdiv remaining 2
  max (min proposed cap) second

namespace PodDeletion

/-- Configuration struct of the pod-deletion variant (`main.go` lines
22-31).  `refreshIntervalOverride` is a Go `int` number of seconds;
`started` is the plain `bool` flag read by the health handler. -/
structure SpiffeJWT where
  healthPort : String
  jwtAudience : String
  jwtFileName : String
  podName : String
  podNamespace : String
  spiffeAgentSocket : String
  refreshIntervalOverride : Int
  started : Bool
deriving DecidableEq

/-- `getRefreshInterval` of the pod-deletion variant (lines 149-157): if the
override is non-zero return it (in seconds) unchanged, otherwise return half
the time until expiry plus one second.  No 80% cap and no 1-second floor. -/
def getRefreshInterval (s : SpiffeJWT) (svid : SVID) (now : Int) : Int :=
  if s.refreshIntervalOverride ≠ 0 then s.refreshIntervalOverride * second
  else Int.tdiv (svid.expiry - now) 2 + second

/-- `fetchJWTSVID` of the pod-deletion variant (lines 86-107) passes
`context.Background()` — no deadline — to both `NewJWTSource` and
`FetchJWTSVID`; the two agent calls are collapsed into one interaction. -/
def fetchContext : GoContext := ⟨none⟩

/-- The outcome of one `fetchJWTSVID` call of the pod-deletion variant,
given the agent's behaviour.  `none`: the call never returns. -/
def fetchJWTSVID (agent : AgentBehavior) : Option (Except String SVID) :=
  fetchViaContext fetchContext agent

/-- `writeJWTSVID` of the pod-deletion variant (lines 109-116):
`os.WriteFile(s.JWTFileName, []byte(jwt.Marshal()), 0644)` truncates and
fully rewrites the file.  `writeOk` is the outcome of the `os.WriteFile`
call; a failed write leaves the model filesystem unchanged (partial writes
are not modelled, no claim depends on the failed-write contents). -/
def writeJWTSVID (s : SpiffeJWT) (jwt : SVID) (fs : FS) (writeOk : Bool) :
    Except String Unit × FS :=
  if writeOk then
    (Except.ok (), fun n => if n = s.jwtFileName then some jwt.marshal else fs n)
  else (Except.error "unable to write JWT SVID to file", fs)

/-- Kubernetes propagation policies (`metav1.DeletePropagation`). -/
inductive PropagationPolicy where
  | orphan : PropagationPolicy
  | background : PropagationPolicy
  | foreground : PropagationPolicy
deriving DecidableEq

/-- One pod-delete request issued to the Kubernetes API. -/
structure DeleteRequest where
  podNamespace : String
  podName : String
  propagationPolicy : PropagationPolicy
deriving DecidableEq

/-- Outcomes of the three Kubernetes API steps inside `deleteOwnPod`:
`rest.InClusterConfig`, `kubernetes.NewForConfig`, and the pod delete. -/
structure K8sEnv where
  inClusterConfigOk : Bool
  newClientsetOk : Bool
  deleteSucceeds : Bool
deriving DecidableEq

/-- Observable outcome of one `deleteOwnPod` call: the delete requests it
issued, how many seconds it slept (`time.Sleep`), and whether it terminated
the process (`logrus.Fatalf` exits with a non-zero status). -/
structure DeleteOutcome where
  requests : List DeleteRequest
  sleptSeconds : Nat
  processExited : Bool
deriving DecidableEq

/-- `deleteOwnPod` of the pod-deletion variant (lines 119-147).  Each error
path calls `logrus.Fatalf` (process exits non-zero immediately); on success
it issues one foreground delete for `podNamespace/podName`, sleeps 60
seconds, and then RETURNS to its caller — it does not exit. -/
def deleteOwnPod (s : SpiffeJWT) (env : K8sEnv) : DeleteOutcome :=
  if env.inClusterConfigOk = false then ⟨[], 0, true⟩
  else if env.newClientsetOk = false then ⟨[], 0, true⟩
  else if env.deleteSucceeds = false then
    ⟨[⟨s.podNamespace, s.podName, PropagationPolicy.foreground⟩], 0, true⟩
  else ⟨[⟨s.podNamespace, s.podName, PropagationPolicy.foreground⟩], 60, false⟩

/-- Events observable while `run` (lines 44-60) executes its initial
fetch-and-write phase. -/
inductive RunEvent where
  | fetchCall : RunEvent
  | deleteCall : RunEvent
  | writeCall : Option SVID → RunEvent
  | setStarted : RunEvent
  | nilDeref : RunEvent
  | fatalExit : RunEvent
deriving DecidableEq

/-- Oracle for the initial phase of `run`: the result of the first
`fetchJWTSVID` (`none` = error, the returned pointer is nil), the outcome of
`writeJWTSVID` when called with a non-nil SVID, and whether all three
Kubernetes steps of `deleteOwnPod` succeed. -/
structure RunOracle where
  fetchInit : Option SVID
  writeOk : Bool
  deleteSucceeds : Bool
deriving DecidableEq

/-- State of the pod-deletion variant after the initial phase of `run`. -/
structure RunResult where
  started : Bool
  successfulCycles : Nat
  alive : Bool
  panicFlag : Bool
deriving DecidableEq

/-- The initial phase of `run` (lines 44-60), up to entering the ticker
loop.  Traced faithfully from the source: a failed fetch logs and calls
`deleteOwnPod`, and — when `deleteOwnPod` returns after its 60-second
sleep — execution FALLS THROUGH to `writeJWTSVID(jwt)` with the nil `jwt`
of the failed fetch, where `jwt.Marshal()` dereferences the nil pointer and
the goroutine panics (killing the process).  A failed write likewise calls
`deleteOwnPod` and then still reaches `s.Started = true`. -/
def runInit (o : RunOracle) : List RunEvent × RunResult :=
  match o.fetchInit with
  | none =>
      if o.deleteSucceeds then
        ([RunEvent.fetchCall, RunEvent.deleteCall, RunEvent.writeCall none,
          RunEvent.nilDeref], ⟨false, 0, false, true⟩)
      else
        ([RunEvent.fetchCall, RunEvent.deleteCall, RunEvent.fatalExit],
         ⟨false, 0, false, false⟩)
  | some jwt =>
      if o.writeOk then
        ([RunEvent.fetchCall, RunEvent.writeCall (some jwt),
          RunEvent.setStarted], ⟨true, 1, true, false⟩)
      else if o.deleteSucceeds then
        ([RunEvent.fetchCall, RunEvent.writeCall (some jwt),
          RunEvent.deleteCall, RunEvent.setStarted], ⟨true, 0, true, false⟩)
      else
        ([RunEvent.fetchCall, RunEvent.writeCall (some jwt),
          RunEvent.deleteCall, RunEvent.fatalExit], ⟨false, 0, false, false⟩)

/-- The `/started` handler of the pod-deletion variant (lines 162-170):
HTTP status written for a given flag value. -/
def startedStatus (s : SpiffeJWT) : Nat := if s.started then 200 else 503

/-- The `/started` handler body (lines 165 and 168). -/
def startedBody (s : SpiffeJWT) : String :=
  if s.started then "Started" else "Not started"

/-- The listen address of `startHealthServer` in the pod-deletion variant
(line 172): `http.ListenAndServe(":8080", mux)` — the literal `":8080"`,
ignoring `s.HealthPort`. -/
def healthListenAddr (_s : SpiffeJWT) : String := ":8080"

end PodDeletion

namespace DirectExit

/-- Configuration struct of the direct-exit variant (lines 192-202).
`refreshIntervalOverride` is a `time.Duration`; `started` is the atomic
`int32` flag (0 = false, 1 = true). -/
structure SpiffeJWT where
  daemonMode : Bool
  healthPort : String
  jwtAudience : String
  jwtFileName : String
  spiffeAgentSocket : String
  refreshIntervalOverride : Int
  started : Int
deriving DecidableEq

/-- `getRefreshInterval` of the direct-exit variant (lines 308-330):
`remaining = time.Until(svid.Expiry)`;
`maxAllowed = time.Duration(float64(remaining) * 0.8)` (modelled exactly as
`tdiv (remaining * 4) 5`, see the file header); the proposed interval is the
override when `> 0`, else `remaining / 2`; it is then clamped to
`maxAllowed` from above and to one second from below. -/
def getRefreshInterval (s : SpiffeJWT) (svid : SVID) (now : Int) : Int :=
  let remaining := svid.expiry - now
  let maxAllowed := Int.tdiv (remaining * 4) 5
  let intv :=
    if s.refreshIntervalOverride > 0 then s.refreshIntervalOverride
    else Int.tdiv remaining 2
  let intv2 := if intv > maxAllowed then maxAllowed else intv
  if intv2 < second then second else intv2

/-- `fetchJWTSVID` of the direct-exit variant (lines 270-292) builds
`ctx, cancel := context.WithTimeout(context.Background(), 10*time.Second)`
and passes `ctx` to both `NewJWTSource` and `FetchJWTSVID`; the two agent
calls are collapsed into one interaction. -/
def fetchContext : GoContext := ⟨some (10 * second)⟩

/-- The outcome of one `fetchJWTSVID` call of the direct-exit variant,
given the agent's behaviour.  `none`: the call never returns. -/
def fetchJWTSVID (agent : AgentBehavior) : Option (Except String SVID) :=
  fetchViaContext fetchContext agent

/-- `writeJWTSVID` of the direct-exit variant (lines 295-302): identical
write to the pod-deletion one, with its own error wrapping. -/
def writeJWTSVID (s : SpiffeJWT) (jwt : SVID) (fs : FS) (writeOk : Bool) :
    Except String Unit × FS :=
  if writeOk then
    (Except.ok (), fun n => if n = s.jwtFileName then some jwt.marshal else fs n)
  else (Except.error "failed to write JWT file", fs)

/-- `fetchAndWriteJWTSVID` (lines 256-267): fetch, then persist; the SVID
is returned only when both steps succeed, and each error is wrapped with
the phase that failed.  `fetchResult` is the outcome of the fetch step. -/
def fetchAndWriteJWTSVID (s : SpiffeJWT) (fs : FS)
    (fetchResult : Except String SVID) (writeOk : Bool) :
    Except String SVID × FS :=
  match fetchResult with
  | Except.error e => (Except.error ("failed to fetch JWT: " ++ e), fs)
  | Except.ok jwt =>
      match writeJWTSVID s jwt fs writeOk with
      | (Except.ok _, fs2) => (Except.ok jwt, fs2)
      | (Except.error e, fs2) =>
          (Except.error ("failed to write JWT: " ++ e), fs2)

/-- Observable outcome of the one-shot branch of `main` (lines 212-219). -/
structure OneShotResult where
  cycles : Nat
  exitCode : Nat
  ranHealthServer : Bool
  enteredWaiting : Bool
deriving DecidableEq

/-- The one-shot (non-daemon) branch of `main` (lines 212-219): exactly one
`fetchAndWriteJWTSVID`; on error `logrus.Fatal` exits with status 1, on
success `main` returns and the process exits with status 0.  The branch
calls neither `startHealthServer` nor `run`, so it never arms a ticker. -/
def oneShotMain (s : SpiffeJWT) (fs : FS) (fetchResult : Except String SVID)
    (writeOk : Bool) : OneShotResult × FS :=
  let r := fetchAndWriteJWTSVID s fs fetchResult writeOk
  match r.1 with
  | Except.error _ => (⟨1, 1, false, false⟩, r.2)
  | Except.ok _ => (⟨1, 0, false, false⟩, r.2)

/-- State of the daemon-mode renewal loop of the direct-exit variant:
the atomic `started` flag, whether the process is still alive (a failed
cycle calls `logrus.Fatal`, which exits), and how many fetch-and-persist
cycles have completed successfully. -/
structure RunState where
  started : Bool
  alive : Bool
  cycles : Nat
deriving DecidableEq

/-- Initial state of `run` (lines 224-253): flag clear, process alive. -/
def initState : RunState := ⟨false, true, 0⟩

/-- One cycle of `run` (the initial call on line 225 and each ticker firing
on lines 242-250 have the same shape): `cycleOk` is whether
`fetchAndWriteJWTSVID` succeeded.  On success the flag is set (line 231;
setting it again on later cycles is idempotent) and the cycle counts; on
failure `logrus.Fatal` terminates the process with the flag unchanged. -/
def step (st : RunState) (cycleOk : Bool) : RunState :=
  if st.alive then
    if cycleOk then ⟨true, true, st.cycles + 1⟩
    else ⟨st.started, false, st.cycles⟩
  else st

/-- The renewal loop of the direct-exit variant, run over a list of cycle
outcomes (the head is the initial cycle of line 225). -/
def runModel (l : List Bool) : RunState := l.foldl step initState

/-- The `/started` handler of the direct-exit variant (lines 335-341):
status 200 exactly when the atomic flag holds 1, else 503; no body. -/
def startedStatus (s : SpiffeJWT) : Nat := if s.started = 1 then 200 else 503

/-- The listen address of `startHealthServer` in the direct-exit variant
(line 344): `":" + s.HealthPort`. -/
def healthListenAddr (s : SpiffeJWT) : String := ":" ++ s.healthPort

end DirectExit

/-- A pod-deletion configuration with the given override (seconds). -/
def pdConfig (o : Int) : PodDeletion.SpiffeJWT :=
  ⟨"8080", "aud", "/run/jwt/token", "pod-1", "ns-1", "agent.sock", o, false⟩

/-- A pod-deletion configuration whose health port is 9090. -/
def pdConfig9090 : PodDeletion.SpiffeJWT :=
  { pdConfig 0 with healthPort := "9090" }

/-- A direct-exit configuration with the given override (a duration). -/
def deConfig (o : Int) : DirectExit.SpiffeJWT :=
  ⟨true, "8080", "aud", "/run/jwt/token", "agent.sock", o, 0⟩

/-- An SVID expiring 100 seconds after time 0. -/
def svid100 : SVID := ⟨"jwt-token-100", 100 * second⟩

/-- An SVID that expired at time 0. -/
def svidExpired : SVID := ⟨"jwt-token-exp", 0⟩

/-- An empty model filesystem. -/
def fsEmpty : FS := fun _ => none

/-- A Kubernetes environment in which every step of `deleteOwnPod`
succeeds. -/
def k8sAllOk : PodDeletion.K8sEnv := ⟨true, true, true⟩

/-- A Kubernetes environment in which the delete request itself fails. -/
def k8sDeleteFails : PodDeletion.K8sEnv := ⟨true, true, false⟩

/-- Truncated halving never exceeds the truncated 80% value on nonnegative
durations. -/
lemma tdiv_half_le_four_fifths (r : Int) (h : 0 ≤ r) :
    Int.tdiv r 2 ≤ Int.tdiv (r * 4) 5 := by
  have h4 : 0 ≤ r * 4 := by omega
  rw [Int.tdiv_eq_ediv h (by decide), Int.tdiv_eq_ediv h4 (by decide)]
  omega

/-- Truncated division of a nonpositive duration by a nonnegative one is
nonpositive. -/
lemma tdiv_nonpos_of_le_zero (r k : Int) (hr : r ≤ 0) (hk : 0 ≤ k) :
    Int.tdiv r k ≤ 0 := by
  have h1 : 0 ≤ Int.tdiv (-r) k := Int.tdiv_nonneg (by omega) hk
  rw [Int.neg_tdiv] at h1
  omega

/-- C1 counterexample: with `remaining = 100 s` and override `o = 90 s` the
claim requires `min(90 s, 80 s) = 80 s`, but the pod-deletion variant's
`getRefreshInterval` returns the uncapped 90 s. -/
theorem podDeletion_override_ignores_cap_cex :
    PodDeletion.getRefreshInterval (pdConfig 90) svid100 0 = 90 * second
    ∧ specNextInterval (some (90 * second)) (svid100.expiry - 0) = 80 * second
    ∧ PodDeletion.getRefreshInterval (pdConfig 90) svid100 0
        ≠ specNextInterval (some (90 * second)) (svid100.expiry - 0) := by
  refine ⟨by decide, by decide, by decide⟩

/-- C1 (amended): in the direct-exit variant every positive override is
clamped to 80% of the remaining lifetime and floored at one second, exactly
the spec's formula; the pod-deletion variant returns the override (in
seconds) unconditionally, with no cap and no floor. -/
theorem directExit_override_capped (sd : DirectExit.SpiffeJWT)
    (sp : PodDeletion.SpiffeJWT) (svid : SVID) (now : Int)
    (hd : 0 < sd.refreshIntervalOverride)
    (hp : sp.refreshIntervalOverride ≠ 0) :
    DirectExit.getRefreshInterval sd svid now
      = specNextInterval (some sd.refreshIntervalOverride) (svid.expiry - now)
    ∧ PodDeletion.getRefreshInterval sp svid now
      = sp.refreshIntervalOverride * second := by
  constructor
  · simp only [DirectExit.getRefreshInterval, specNextInterval, min_def,
      max_def, gt_iff_lt]
    split_ifs <;> omega
  · simp only [PodDeletion.getRefreshInterval, if_pos hp]

/-- C1 witness: the amended theorem at override 90 s, remaining 100 s. -/
theorem directExit_override_capped_witness :
    ((0 : Int) < (deConfig (90 * second)).refreshIntervalOverride
      ∧ (pdConfig 90).refreshIntervalOverride ≠ 0)
    ∧ (DirectExit.getRefreshInterval (deConfig (90 * second)) svid100 0
        = specNextInterval (some (deConfig (90 * second)).refreshIntervalOverride)
            (svid100.expiry - 0)
      ∧ PodDeletion.getRefreshInterval (pdConfig 90) svid100 0
        = (pdConfig 90).refreshIntervalOverride * second) :=
  ⟨⟨by decide, by decide⟩,
    directExit_override_capped (deConfig (90 * second)) (pdConfig 90) svid100 0
      (by decide) (by decide)⟩

/-- C2 counterexample: with `remaining = 100 s` and no override the claim
requires `remaining / 2 = 50 s`, but the pod-deletion variant returns
`remaining / 2 + 1 s = 51 s`. -/
theorem podDeletion_default_interval_cex :
    PodDeletion.getRefreshInterval (pdConfig 0) svid100 0 = 51 * second
    ∧ specNextInterval none (svid100.expiry - 0) = 50 * second
    ∧ PodDeletion.getRefreshInterval (pdConfig 0) svid100 0
        ≠ specNextInterval none (svid100.expiry - 0) := by
  refine ⟨by decide, by decide, by decide⟩

/-- C2 (amended): in the direct-exit variant, with no override set and
positive remaining lifetime, the interval is the spec's
`min(remaining/2, remaining*0.8)` floored at one second, which collapses to
`remaining/2` floored at one second; the pod-deletion variant instead
returns `remaining/2 + 1 s`. -/
theorem directExit_default_half_floor (sd : DirectExit.SpiffeJWT)
    (sp : PodDeletion.SpiffeJWT) (svid : SVID) (now : Int)
    (hd : sd.refreshIntervalOverride ≤ 0)
    (hp : sp.refreshIntervalOverride = 0)
    (hr : 0 < svid.expiry - now) :
    DirectExit.getRefreshInterval sd svid now
      = specNextInterval none (svid.expiry - now)
    ∧ specNextInterval none (svid.expiry - now)
      = max (Int.tdiv (svid.expiry - now) 2) second
    ∧ PodDeletion.getRefreshInterval sp svid now
      = Int.tdiv (svid.expiry - now) 2 + second := by
  have key := tdiv_half_le_four_fifths (svid.expiry - now) (le_of_lt hr)
  refine ⟨?_, ?_, ?_⟩
  · simp only [DirectExit.getRefreshInterval, specNextInterval, min_def,
      max_def, gt_iff_lt]
    split_ifs <;> omega
  · simp only [specNextInterval, min_def, max_def]
    split_ifs <;> omega
  · simp only [PodDeletion.getRefreshInterval, hp]
    simp

/-- C2 witness: the amended theorem at remaining 100 s with no override. -/
theorem directExit_default_half_floor_witness :
    ((deConfig 0).refreshIntervalOverride ≤ 0
      ∧ (pdConfig 0).refreshIntervalOverride = 0
      ∧ 0 < svid100.expiry - 0)
    ∧ (DirectExit.getRefreshInterval (deConfig 0) svid100 0
        = specNextInterval none (svid100.expiry - 0)
      ∧ specNextInterval none (svid100.expiry - 0)
        = max (Int.tdiv (svid100.expiry - 0) 2) second
      ∧ PodDeletion.getRefreshInterval (pdConfig 0) svid100 0
        = Int.tdiv (svid100.expiry - 0) 2 + second) :=
  ⟨⟨by decide, by decide, by decide⟩,
    directExit_default_half_floor (deConfig 0) (pdConfig 0) svid100 0
      (by decide) (by decide) (by decide)⟩

/-- C3 counterexample: for an expired credential (`remaining = -1 s`) and
override 30 s the claim requires 1 s, but the pod-deletion variant returns
30 s. -/
theorem podDeletion_expired_override_cex :
    PodDeletion.getRefreshInterval (pdConfig 30) svidExpired second
      = 30 * second
    ∧ PodDeletion.getRefreshInterval (pdConfig 30) svidExpired second
        ≠ second := by
  refine ⟨by decide, by decide⟩

/-- C3 (amended): in the direct-exit variant an expired or clock-skewed
credential (`remaining ≤ 0`) always yields exactly one second, whatever the
override; the pod-deletion variant gives no such guarantee (it returns the
override, or `remaining/2 + 1 s ≤ 1 s`, possibly nonpositive). -/
theorem directExit_expired_one_second (sd : DirectExit.SpiffeJWT)
    (svid : SVID) (now : Int) (hr : svid.expiry - now ≤ 0) :
    DirectExit.getRefreshInterval sd svid now = second := by
  have hc : Int.tdiv ((svid.expiry - now) * 4) 5 ≤ 0 :=
    tdiv_nonpos_of_le_zero _ _ (by omega) (by decide)
  have hp : Int.tdiv (svid.expiry - now) 2 ≤ 0 :=
    tdiv_nonpos_of_le_zero _ _ hr (by decide)
  have hs : second = 1000000000 := rfl
  simp only [DirectExit.getRefreshInterval, gt_iff_lt]
  split_ifs <;> omega

/-- C3 witness: the direct-exit variant returns one second for a credential
one second past expiry, with override 30 s set. -/
theorem directExit_expired_one_second_witness :
    svidExpired.expiry - second ≤ 0
    ∧ DirectExit.getRefreshInterval (deConfig (30 * second)) svidExpired second
        = second :=
  ⟨by decide,
    directExit_expired_one_second (deConfig (30 * second)) svidExpired second
      (by decide)⟩

/-- One loop step preserves the invariant that the flag is set exactly when
some cycle has completed successfully. -/
lemma step_preserves_inv (st : DirectExit.RunState) (b : Bool)
    (h : st.started = true ↔ 1 ≤ st.cycles) :
    ((DirectExit.step st b).started = true
      ↔ 1 ≤ (DirectExit.step st b).cycles) := by
  by_cases ha : st.alive <;> by_cases hb : b <;>
    simp [DirectExit.step, ha, hb, h]

/-- Folding the loop over any outcome list preserves the invariant. -/
lemma foldl_preserves_inv (l : List Bool) :
    ∀ st : DirectExit.RunState, (st.started = true ↔ 1 ≤ st.cycles) →
      ((l.foldl DirectExit.step st).started = true
        ↔ 1 ≤ (l.foldl DirectExit.step st).cycles) := by
  induction l with
  | nil => intro st h; simpa using h
  | cons b t ih =>
      intro st h
      simp only [List.foldl_cons]
      exact ih _ (step_preserves_inv st b h)

/-- Once the flag is set, no further loop outcome clears it. -/
lemma foldl_started_mono (l : List Bool) :
    ∀ st : DirectExit.RunState, st.started = true →
      (l.foldl DirectExit.step st).started = true := by
  induction l with
  | nil => intro st h; simpa using h
  | cons b t ih =>
      intro st h
      simp only [List.foldl_cons]
      refine ih _ ?_
      by_cases ha : st.alive <;> by_cases hb : b <;>
        simp [DirectExit.step, ha, hb, h]

/-- C4 (amended): in the direct-exit variant, over every sequence of cycle
outcomes the readiness flag starts clear, is set exactly when at least one
fetch-and-persist cycle has succeeded, and never reverts once set.  (The
pod-deletion variant violates the claim: see the counterexample.) -/
theorem directExit_readiness_lifecycle (l extra : List Bool) :
    ((DirectExit.runModel l).started = true
      ↔ 1 ≤ (DirectExit.runModel l).cycles)
    ∧ (DirectExit.runModel []).started = false
    ∧ (DirectExit.runModel l).started
        ≤ (DirectExit.runModel (l ++ extra)).started := by
  refine ⟨foldl_preserves_inv l DirectExit.initState (by simp [DirectExit.initState]),
    rfl, ?_⟩
  unfold DirectExit.runModel
  rw [List.foldl_append]
  cases hs : (l.foldl DirectExit.step DirectExit.initState).started
  · exact Bool.false_le _
  · rw [foldl_started_mono extra _ hs]

/-- C4 counterexample: in the pod-deletion variant, when the initial fetch
succeeds, the write fails and the self-delete succeeds, `run` still sets
`Started = true` although no fetch-and-persist cycle completed. -/
theorem podDeletion_started_without_success_cex :
    (PodDeletion.runInit ⟨some svid100, false, true⟩).2.started = true
    ∧ (PodDeletion.runInit ⟨some svid100, false, true⟩).2.successfulCycles
        = 0 := by
  refine ⟨rfl, rfl⟩

/-- C4 witness: the amended lifecycle at a one-success run extended by a
failing cycle. -/
theorem directExit_readiness_lifecycle_witness :
    ((DirectExit.runModel [true]).started = true
      ↔ 1 ≤ (DirectExit.runModel [true]).cycles)
    ∧ (DirectExit.runModel []).started = false
    ∧ (DirectExit.runModel [true]).started
        ≤ (DirectExit.runModel ([true] ++ [false])).started :=
  directExit_readiness_lifecycle [true] [false]

/-- C5: a successful direct-exit cycle returns exactly the SVID the fetch
step produced, and the credential file afterwards holds exactly its
`Marshal` bytes, whatever the file held before; and the (identical)
pod-deletion write has the same overwrite effect. -/
theorem write_persists_fetched_marshal (s : DirectExit.SpiffeJWT) (fs : FS)
    (fetchResult : Except String SVID) (writeOk : Bool) (jwt : SVID)
    (h : (DirectExit.fetchAndWriteJWTSVID s fs fetchResult writeOk).1
      = Except.ok jwt) :
    fetchResult = Except.ok jwt
    ∧ (DirectExit.fetchAndWriteJWTSVID s fs fetchResult writeOk).2
        s.jwtFileName = some jwt.marshal
    ∧ ∀ (sp : PodDeletion.SpiffeJWT) (fsp : FS),
        (PodDeletion.writeJWTSVID sp jwt fsp true).2 sp.jwtFileName
          = some jwt.marshal := by
  cases fetchResult with
  | error e =>
      simp [DirectExit.fetchAndWriteJWTSVID] at h
  | ok j =>
      cases writeOk with
      | false =>
          simp [DirectExit.fetchAndWriteJWTSVID, DirectExit.writeJWTSVID] at h
      | true =>
          simp only [DirectExit.fetchAndWriteJWTSVID, DirectExit.writeJWTSVID,
            if_true] at h ⊢
          obtain rfl : j = jwt := by
            simpa using h
          refine ⟨rfl, by simp, ?_⟩
          intro sp fsp
          simp [PodDeletion.writeJWTSVID]

/-- C5 witness: the round-trip at a concrete successful cycle over the
empty filesystem. -/
theorem write_persists_fetched_marshal_witness :
    (Except.ok svid100 : Except String SVID) = Except.ok svid100
    ∧ (DirectExit.fetchAndWriteJWTSVID (deConfig 0) fsEmpty
        (Except.ok svid100) true).2 (deConfig 0).jwtFileName
        = some svid100.marshal
    ∧ ∀ (sp : PodDeletion.SpiffeJWT) (fsp : FS),
        (PodDeletion.writeJWTSVID sp svid100 fsp true).2 sp.jwtFileName
          = some svid100.marshal :=
  write_persists_fetched_marshal (deConfig 0) fsEmpty (Except.ok svid100)
    true svid100 rfl

/-- C6 counterexample: the pod-deletion variant's fetch runs under
`context.Background()` — no deadline — so a hung agent leaves the fetch
pending forever instead of returning a failure. -/
theorem podDeletion_fetch_no_timeout_cex :
    PodDeletion.fetchContext.deadline = none
    ∧ PodDeletion.fetchJWTSVID AgentBehavior.hang = none := by
  refine ⟨rfl, rfl⟩

/-- C6 (amended): in the direct-exit variant the fetch context carries a
10-second deadline, every fetch returns (never stays pending), and a hung
agent surfaces as a deadline-exceeded error result; the pod-deletion
variant's fetch is unbounded. -/
theorem directExit_fetch_timeout_bounded :
    DirectExit.fetchContext.deadline = some (10 * second)
    ∧ (∀ a : AgentBehavior, (DirectExit.fetchJWTSVID a).isSome = true)
    ∧ DirectExit.fetchJWTSVID AgentBehavior.hang
        = some (Except.error "context deadline exceeded") := by
  refine ⟨rfl, ?_, rfl⟩
  intro a
  cases a <;> rfl

/-- C7 counterexample: when the delete request succeeds, `deleteOwnPod`
sleeps 60 seconds and then returns to its caller — the process does not
exit, contrary to the claim that it exits non-zero after the pause. -/
theorem deleteOwnPod_returns_after_pause_cex :
    (PodDeletion.deleteOwnPod (pdConfig 0) k8sAllOk).sleptSeconds = 60
    ∧ (PodDeletion.deleteOwnPod (pdConfig 0) k8sAllOk).processExited
        = false := by
  refine ⟨rfl, rfl⟩

/-- C7 (amended): once the in-cluster config and clientset are created,
`deleteOwnPod` issues exactly one foreground delete request for the
configured namespace and pod name; on success it pauses 60 seconds and then
returns to its caller (the process keeps running on this path), and when
the delete request fails it terminates the process non-zero immediately
with no pause. -/
theorem deleteOwnPod_requests_and_exit (s : PodDeletion.SpiffeJWT)
    (env : PodDeletion.K8sEnv) (h1 : env.inClusterConfigOk = true)
    (h2 : env.newClientsetOk = true) :
    (PodDeletion.deleteOwnPod s env).requests
      = [⟨s.podNamespace, s.podName, PodDeletion.PropagationPolicy.foreground⟩]
    ∧ PodDeletion.deleteOwnPod s env
      = if env.deleteSucceeds then
          ⟨[⟨s.podNamespace, s.podName,
              PodDeletion.PropagationPolicy.foreground⟩], 60, false⟩
        else
          ⟨[⟨s.podNamespace, s.podName,
              PodDeletion.PropagationPolicy.foreground⟩], 0, true⟩ := by
  cases hds : env.deleteSucceeds <;>
    simp [PodDeletion.deleteOwnPod, h1, h2, hds]

/-- C7 witness: the amended behaviour at a concrete configuration, in the
environment where the delete request itself fails. -/
theorem deleteOwnPod_requests_and_exit_witness :
    (PodDeletion.deleteOwnPod (pdConfig 30) k8sDeleteFails).requests
      = [⟨(pdConfig 30).podNamespace, (pdConfig 30).podName,
          PodDeletion.PropagationPolicy.foreground⟩]
    ∧ PodDeletion.deleteOwnPod (pdConfig 30) k8sDeleteFails
      = if k8sDeleteFails.deleteSucceeds then
          ⟨[⟨(pdConfig 30).podNamespace, (pdConfig 30).podName,
              PodDeletion.PropagationPolicy.foreground⟩], 60, false⟩
        else
          ⟨[⟨(pdConfig 30).podNamespace, (pdConfig 30).podName,
              PodDeletion.PropagationPolicy.foreground⟩], 0, true⟩ :=
  deleteOwnPod_requests_and_exit (pdConfig 30) k8sDeleteFails rfl rfl

/-- C8: the one-shot branch of the direct-exit `main` performs exactly one
fetch-and-persist cycle, exits 0 exactly when the cycle succeeded and 1
otherwise, never runs the health server, and never enters the waiting
state. -/
theorem oneShot_single_cycle_exit (s : DirectExit.SpiffeJWT) (fs : FS)
    (fetchResult : Except String SVID) (writeOk : Bool) :
    (DirectExit.oneShotMain s fs fetchResult writeOk).1.cycles = 1
    ∧ (DirectExit.oneShotMain s fs fetchResult writeOk).1.ranHealthServer
        = false
    ∧ (DirectExit.oneShotMain s fs fetchResult writeOk).1.enteredWaiting
        = false
    ∧ ((DirectExit.oneShotMain s fs fetchResult writeOk).1.exitCode = 0
        ↔ ∃ jwt, fetchResult = Except.ok jwt ∧ writeOk = true)
    ∧ ((DirectExit.oneShotMain s fs fetchResult writeOk).1.exitCode = 0
        ∨ (DirectExit.oneShotMain s fs fetchResult writeOk).1.exitCode
            = 1) := by
  cases fetchResult with
  | error e =>
      simp [DirectExit.oneShotMain, DirectExit.fetchAndWriteJWTSVID]
  | ok j =>
      cases writeOk with
      | false =>
          simp [DirectExit.oneShotMain, DirectExit.fetchAndWriteJWTSVID,
            DirectExit.writeJWTSVID]
      | true =>
          simp [DirectExit.oneShotMain, DirectExit.fetchAndWriteJWTSVID,
            DirectExit.writeJWTSVID]

/-- C8 witness: the one-shot behaviour at a concrete successful cycle. -/
theorem oneShot_single_cycle_exit_witness :
    (DirectExit.oneShotMain (deConfig 0) fsEmpty (Except.ok svid100)
        true).1.cycles = 1
    ∧ (DirectExit.oneShotMain (deConfig 0) fsEmpty (Except.ok svid100)
        true).1.ranHealthServer = false
    ∧ (DirectExit.oneShotMain (deConfig 0) fsEmpty (Except.ok svid100)
        true).1.enteredWaiting = false
    ∧ ((DirectExit.oneShotMain (deConfig 0) fsEmpty (Except.ok svid100)
        true).1.exitCode = 0
        ↔ ∃ jwt, (Except.ok svid100 : Except String SVID) = Except.ok jwt
            ∧ true = true)
    ∧ ((DirectExit.oneShotMain (deConfig 0) fsEmpty (Except.ok svid100)
        true).1.exitCode = 0
        ∨ (DirectExit.oneShotMain (deConfig 0) fsEmpty (Except.ok svid100)
          true).1.exitCode = 1) :=
  oneShot_single_cycle_exit (deConfig 0) fsEmpty (Except.ok svid100) true

/-- C9 counterexample: the pod-deletion variant's health server listens on
the literal `":8080"` even when the configured health port is 9090. -/
theorem podDeletion_health_port_hardcoded_cex :
    pdConfig9090.healthPort = "9090"
    ∧ PodDeletion.healthListenAddr pdConfig9090 = ":8080"
    ∧ (":8080" : String) ≠ ":9090" := by
  refine ⟨rfl, rfl, by decide⟩

/-- C9 (amended): in both variants the `/started` route answers 200 exactly
when the readiness flag is set and 503 otherwise; the direct-exit variant
listens on the configured health port, while the pod-deletion variant
always listens on the fixed port 8080, ignoring its configuration. -/
theorem health_endpoint_status_and_port (sp : PodDeletion.SpiffeJWT)
    (sd : DirectExit.SpiffeJWT) :
    (PodDeletion.startedStatus sp = 200 ↔ sp.started = true)
    ∧ (PodDeletion.startedStatus sp = 503 ↔ sp.started = false)
    ∧ (DirectExit.startedStatus sd = 200 ↔ sd.started = 1)
    ∧ (DirectExit.startedStatus sd = 503 ↔ sd.started ≠ 1)
    ∧ DirectExit.healthListenAddr sd = ":" ++ sd.healthPort
    ∧ PodDeletion.healthListenAddr sp = ":8080" := by
  refine ⟨?_, ?_, ?_, ?_, rfl, rfl⟩
  · cases hs : sp.started <;> simp [PodDeletion.startedStatus, hs]
  · cases hs : sp.started <;> simp [PodDeletion.startedStatus, hs]
  · by_cases hs : sd.started = 1 <;> simp [DirectExit.startedStatus, hs]
  · by_cases hs : sd.started = 1 <;> simp [DirectExit.startedStatus, hs]

/-- C9 witness: the status table and listen addresses at concrete
configurations. -/
theorem health_endpoint_status_and_port_witness :
    (PodDeletion.startedStatus pdConfig9090 = 200
      ↔ pdConfig9090.started = true)
    ∧ (PodDeletion.startedStatus pdConfig9090 = 503
      ↔ pdConfig9090.started = false)
    ∧ (DirectExit.startedStatus (deConfig 0) = 200
      ↔ (deConfig 0).started = 1)
    ∧ (DirectExit.startedStatus (deConfig 0) = 503
      ↔ (deConfig 0).started ≠ 1)
    ∧ DirectExit.healthListenAddr (deConfig 0) = ":" ++ (deConfig 0).healthPort
    ∧ PodDeletion.healthListenAddr pdConfig9090 = ":8080" :=
  health_endpoint_status_and_port pdConfig9090 (deConfig 0)

/-- C10: in the pod-deletion variant, when the initial fetch fails and the
self-delete succeeds (so `deleteOwnPod` returns after its sleep), `run`
falls through to `writeJWTSVID` with the nil SVID of the failed fetch and
the nil-pointer dereference in `jwt.Marshal()` panics the goroutine: the
persist call is reachable with a nil argument. -/
theorem podDeletion_nil_write_reachable (o : PodDeletion.RunOracle)
    (h1 : o.fetchInit = none) (h2 : o.deleteSucceeds = true) :
    (PodDeletion.runInit o).1
      = [PodDeletion.RunEvent.fetchCall, PodDeletion.RunEvent.deleteCall,
         PodDeletion.RunEvent.writeCall none, PodDeletion.RunEvent.nilDeref]
    ∧ (PodDeletion.runInit o).2.panicFlag = true
    ∧ (PodDeletion.runInit o).2.started = false := by
  obtain ⟨f, w, d⟩ := o
  simp only at h1 h2
  subst h1; subst h2
  refine ⟨rfl, rfl, rfl⟩

/-- C10 witness: the trace at a concrete oracle with a failed initial fetch
and a successful self-delete. -/
theorem podDeletion_nil_write_reachable_witness :
    (PodDeletion.RunOracle.mk none false true).fetchInit = none
    ∧ (PodDeletion.RunOracle.mk none false true).deleteSucceeds = true
    ∧ ((PodDeletion.runInit ⟨none, false, true⟩).1
        = [PodDeletion.RunEvent.fetchCall, PodDeletion.RunEvent.deleteCall,
           PodDeletion.RunEvent.writeCall none,
           PodDeletion.RunEvent.nilDeref]
      ∧ (PodDeletion.runInit ⟨none, false, true⟩).2.panicFlag = true
      ∧ (PodDeletion.runInit ⟨none, false, true⟩).2.started = false) :=
  ⟨rfl, rfl, podDeletion_nil_write_reachable ⟨none, false, true⟩ rfl rfl⟩
